import Mathlib

/-!
Shallow embedding of the origin-fetch caching layer of the btcfi-api
service (`src/github.ts`): the LRU-backed resource fetcher, its error
taxonomy, and the two typed dataset accessors.  External collaborators
(the `undici` HTTP client, the platform `JSON.parse`, `process.env`, the
process clock) are passed in as explicit parameters; module-level mutable
state (the cache store and the memoized owner/repo/branch configuration)
is threaded as an explicit `GithubState`.
-/

namespace BtcfiApi

/-- Model of a JSON value, the result of the platform `JSON.parse`. -/
inductive Json where
  | null
  | bool (b : Bool)
  | num (n : Int)
  | str (s : String)
  | arr (elems : List Json)
  | obj (fields : List (String × Json))
deriving Repr

/-- Property access `v.name` on a parsed JSON value: a field of an object,
`undefined` (here `none`) on every other shape. -/
def Json.getField : Json → String → Option Json
  | .obj fields, name => (fields.find? (fun p => p.1 == name)).map (fun p => p.2)
  | _, _ => none

/-- `interface CacheEntry` of `src/github.ts`: payload bytes (modelled as the
UTF-8 text they decode from) plus optional response metadata. -/
structure CacheEntry where
  body : String
  etag : Option String := none
  lastModified : Option String := none
  contentType : Option String := none
  statusCode : Option Nat := none
deriving Repr, DecidableEq

/-- `GithubFetchMetrics` of `src/types.ts` (fetch provenance). -/
structure GithubFetchMetrics where
  cacheHit : Bool
  upstreamStatus : Nat
  servedStale : Bool
  source : String
deriving Repr, DecidableEq

/-- `interface FetchResult` of `src/github.ts`. -/
structure FetchResult where
  buffer : String
  etag : Option String
  lastModified : Option String
  contentType : Option String
  metrics : GithubFetchMetrics
deriving Repr, DecidableEq

/-- `interface FetchOptions` of `src/github.ts`. -/
structure FetchOptions where
  ttlSeconds : Nat
  source : String
  path : String
deriving Repr, DecidableEq

/-- The exceptions the layer can throw: the two declared subclasses
`UpstreamNotFoundError` and `UpstreamUnavailableError`, the plain
`new Error(...)` thrown by `requiredEnv` and `parseJson`, and an exception
thrown by the `undici` `request` call itself (a transport-level failure)
that the layer does not catch. -/
inductive JsException where
  | upstreamNotFound (message : String)
  | upstreamUnavailable (message : String) (statusCode : Nat)
  | genericError (message : String)
  | transportThrown (message : String)
deriving Repr, DecidableEq

/-- An HTTP response as consumed by the layer: status code, the three
headers it reads (each already reduced to at most one value, as
`firstHeader` does), and the body text. -/
structure HttpResponse where
  statusCode : Nat
  etag : Option String := none
  lastModified : Option String := none
  contentType : Option String := none
  body : String := ""
deriving Repr, DecidableEq

/-- Outcome of one `undici` `request` call: either an HTTP response
(any status code) or a thrown transport-level exception. -/
inductive OriginResult where
  | response (r : HttpResponse)
  | transportFailure (message : String)
deriving Repr, DecidableEq

/-- The origin client: given the request URL and the optional
`If-None-Match` header value, one network exchange. -/
def Origin : Type := String → Option String → OriginResult

/-- The slice of `process.env` the layer reads. `none` models an unset
variable. -/
structure Env where
  githubOwner : Option String := none
  githubRepo : Option String := none
  githubBranch : Option String := none
  rawBase : Option String := none
deriving Repr, DecidableEq

/-- The module-level memoized configuration (`cachedOwner`, `cachedRepo`,
`cachedBranch`), `none` modelling `null`. -/
structure ConfigCache where
  cachedOwner : Option String := none
  cachedRepo : Option String := none
  cachedBranch : Option String := none
deriving Repr, DecidableEq

/-- JavaScript truthiness test `!v` for a `string | null | undefined`
value: true exactly on `null`/`undefined` and the empty string. -/
def isFalsy : Option String → Bool
  | none => true
  | some s => s == ""

/-- `requiredEnv`: return the variable's value, or throw a plain `Error`
when it is unset or empty (`if (!value) throw`). -/
def requiredEnv (value : Option String) (key : String) : Except JsException String :=
  if isFalsy value then
    .error (.genericError ("Missing required environment variable: " ++ key))
  else
    .ok (value.getD "")

/-- `getOwner`: memoized read of `GITHUB_OWNER` via `requiredEnv`. -/
def getOwner (env : Env) (cfg : ConfigCache) : Except JsException (String × ConfigCache) :=
  if isFalsy cfg.cachedOwner then
    match requiredEnv env.githubOwner "GITHUB_OWNER" with
    | .ok v => .ok (v, { cfg with cachedOwner := some v })
    | .error e => .error e
  else
    .ok (cfg.cachedOwner.getD "", cfg)

/-- `getRepo`: memoized read of `GITHUB_REPO` via `requiredEnv`. -/
def getRepo (env : Env) (cfg : ConfigCache) : Except JsException (String × ConfigCache) :=
  if isFalsy cfg.cachedRepo then
    match requiredEnv env.githubRepo "GITHUB_REPO" with
    | .ok v => .ok (v, { cfg with cachedRepo := some v })
    | .error e => .error e
  else
    .ok (cfg.cachedRepo.getD "", cfg)

/-- `getBranch`: memoized read of `GITHUB_BRANCH`, defaulting to `"main"`
(`process.env.GITHUB_BRANCH ?? 'main'`); never throws. -/
def getBranch (env : Env) (cfg : ConfigCache) : String × ConfigCache :=
  if isFalsy cfg.cachedBranch then
    let b := env.githubBranch.getD "main"
    (b, { cfg with cachedBranch := some b })
  else
    (cfg.cachedBranch.getD "", cfg)

/-- `cacheKey`. -/
def cacheKey (source path : String) : String := source ++ ":" ++ path

/-- Modelled from the spec: the Cache Store contract of spec section 4.1
(the `lru-cache` dependency is outside `src/`): a key-to-entry store where
each entry carries its absolute expiry instant (insertion time + ttl, in
milliseconds); the LRU bound and eviction order are not needed by any
claim and are not modelled. -/
def CacheStore : Type := List (String × CacheEntry × Nat)

/-- Modelled from the spec: `cache.get(key, { allowStale: true })` — the
entry for the key regardless of TTL expiry, or absent. -/
def cacheGetAllowStale (c : CacheStore) (key : String) : Option CacheEntry :=
  match c.find? (fun p => p.1 == key) with
  | some p => some p.2.1
  | none => none

/-- Modelled from the spec: `cache.getRemainingTTL(key) ?? 0` — remaining
freshness in milliseconds (non-positive when expired), `0` when absent. -/
def cacheRemainingTTL (c : CacheStore) (key : String) (now : Nat) : Int :=
  match c.find? (fun p => p.1 == key) with
  | some p => (p.2.2 : Int) - (now : Int)
  | none => 0

/-- Modelled from the spec: `cache.set(key, entry, { ttl })` — insert or
replace the entry for the key, with expiry `now + ttl`. -/
def cacheSet (c : CacheStore) (key : String) (e : CacheEntry) (expiresAt : Nat) : CacheStore :=
  (key, e, expiresAt) :: c.filter (fun p => p.1 != key)

/-- The module-level mutable state of `src/github.ts`: the LRU cache and
the memoized configuration. -/
structure GithubState where
  cache : CacheStore
  config : ConfigCache

/-- Outcome of one `fetchResource` call: the returned value or thrown
exception, the state after the call, and how many origin requests the
call issued (0 or 1). -/
structure FetchOutcome where
  result : Except JsException FetchResult
  state : GithubState
  originCalls : Nat

def DEFAULT_RAW_BASE : String := "https://raw.githubusercontent.com"

/-- `.replace(/\/$/, '')`: drop one trailing slash. -/
def stripTrailingSlash (s : String) : String :=
  if s.endsWith "/" then s.dropRight 1 else s

/-- The request URL `{base}/{owner}/{repo}/{branch}/{path}`. -/
def buildUrl (base owner repo branch path : String) : String :=
  base ++ "/" ++ owner ++ "/" ++ repo ++ "/" ++ branch ++ "/" ++ path

/-- The `If-None-Match` header: sent exactly when a cached entry exists
and its etag is truthy (`if (cached?.etag)`). -/
def validatorOf (cached : Option CacheEntry) : Option String :=
  match cached with
  | some e => if isFalsy e.etag then none else e.etag
  | none => none

/-- The new cache entry built on the success path of `fetchResource`
(`src/github.ts:190-196`). -/
def entryOfResponse (r : HttpResponse) : CacheEntry :=
  { body := r.body, etag := r.etag, lastModified := r.lastModified,
    contentType := r.contentType, statusCode := some r.statusCode }

/-- The status-code dispatch of `fetchResource` (`src/github.ts:129-210`):
the chain `statusCode === 304 && cached` / `statusCode === 404` /
`statusCode >= 400` / success, given the state `st1` after configuration
was resolved.  The 304-and-cached guard comes first; with no cached entry
a 304 falls past the 404 and >= 400 checks into the success path. -/
def handleResponse (now : Nat) (opts : FetchOptions) (st1 : GithubState) (key : String)
    (cached : Option CacheEntry) (r : HttpResponse) : FetchOutcome :=
  match cached with
  | some entry =>
    if r.statusCode = 304 then
      -- `cache.set(key, { ...cached, statusCode }, { ttl })`, payload kept
      { result := .ok
          { buffer := entry.body, etag := entry.etag, lastModified := entry.lastModified,
            contentType := entry.contentType,
            metrics := { cacheHit := true, upstreamStatus := r.statusCode,
                         servedStale := false, source := opts.source } },
        state := { st1 with
                   cache := cacheSet st1.cache key
                              ({ entry with statusCode := some r.statusCode })
                              (now + opts.ttlSeconds * 1000) },
        originCalls := 1 }
    else if r.statusCode = 404 ∨ 400 ≤ r.statusCode then
      -- 404 or other status >= 400 with an entry: serve stale, no cache write
      { result := .ok
          { buffer := entry.body, etag := entry.etag, lastModified := entry.lastModified,
            contentType := entry.contentType,
            metrics := { cacheHit := true, upstreamStatus := r.statusCode,
                         servedStale := true, source := opts.source } },
        state := st1, originCalls := 1 }
    else
      { result := .ok
          { buffer := r.body, etag := r.etag, lastModified := r.lastModified,
            contentType := r.contentType,
            metrics := { cacheHit := false, upstreamStatus := r.statusCode,
                         servedStale := false, source := opts.source } },
        state := { st1 with
                   cache := cacheSet st1.cache key (entryOfResponse r)
                              (now + opts.ttlSeconds * 1000) },
        originCalls := 1 }
  | none =>
    if r.statusCode = 404 then
      { result := .error (.upstreamNotFound ("Resource not found upstream: " ++ opts.path)),
        state := st1, originCalls := 1 }
    else if 400 ≤ r.statusCode then
      { result := .error (.upstreamUnavailable ("Upstream request failed for " ++ opts.path)
                            r.statusCode),
        state := st1, originCalls := 1 }
    else
      { result := .ok
          { buffer := r.body, etag := r.etag, lastModified := r.lastModified,
            contentType := r.contentType,
            metrics := { cacheHit := false, upstreamStatus := r.statusCode,
                         servedStale := false, source := opts.source } },
        state := { st1 with
                   cache := cacheSet st1.cache key (entryOfResponse r)
                              (now + opts.ttlSeconds * 1000) },
        originCalls := 1 }

/-- The body of `fetchResource` from the point where the cache was not
fresh (`src/github.ts:113-210`): resolve configuration (each `requiredEnv`
throw propagates), issue the one origin request (a thrown transport
exception propagates uncaught), then dispatch on the status code. -/
def fetchFromOrigin (env : Env) (now : Nat) (origin : Origin) (opts : FetchOptions)
    (st : GithubState) (key : String) (cached : Option CacheEntry) : FetchOutcome :=
  match getOwner env st.config with
  | .error e => { result := .error e, state := st, originCalls := 0 }
  | .ok (owner, cfg1) =>
  match getRepo env cfg1 with
  | .error e => { result := .error e, state := { st with config := cfg1 }, originCalls := 0 }
  | .ok (repo, cfg2) =>
  match origin (buildUrl (stripTrailingSlash (env.rawBase.getD DEFAULT_RAW_BASE)) owner repo
      (getBranch env cfg2).1 opts.path) (validatorOf cached) with
  | .transportFailure msg =>
      { result := .error (.transportThrown msg),
        state := { st with config := (getBranch env cfg2).2 }, originCalls := 1 }
  | .response r =>
      handleResponse now opts ({ st with config := (getBranch env cfg2).2 }) key cached r

/-- `fetchResource` (`src/github.ts:92-211`). -/
def fetchResource (env : Env) (now : Nat) (origin : Origin) (opts : FetchOptions)
    (st : GithubState) : FetchOutcome :=
  match cacheGetAllowStale st.cache (cacheKey opts.source opts.path) with
  | some entry =>
    if 0 < cacheRemainingTTL st.cache (cacheKey opts.source opts.path) now then
      { result := .ok
          { buffer := entry.body, etag := entry.etag, lastModified := entry.lastModified,
            contentType := entry.contentType,
            metrics := { cacheHit := true, upstreamStatus := entry.statusCode.getD 200,
                         servedStale := false, source := opts.source } },
        state := st, originCalls := 0 }
    else
      fetchFromOrigin env now origin opts st (cacheKey opts.source opts.path) (some entry)
  | none => fetchFromOrigin env now origin opts st (cacheKey opts.source opts.path) none

/-- Result of the platform `JSON.parse` on a string: a JSON value, or a
thrown exception carrying a message. -/
def JsonParse : Type := String → Except String Json

/-- `parseJson` (`src/github.ts:213-219`): `JSON.parse`, with a parse
exception rethrown as a plain `Error` naming the path. -/
def parseJson (jparse : JsonParse) (buffer : String) (path : String) : Except JsException Json :=
  match jparse buffer with
  | .ok v => .ok v
  | .error msg =>
      .error (.genericError ("Failed to parse JSON from " ++ path ++ ": " ++ msg))

/-- `type Dataset` of `src/types.ts`. -/
inductive Dataset where
  | lending
  | borrowing
deriving Repr, DecidableEq

def datasetName : Dataset → String
  | .lending => "lending"
  | .borrowing => "borrowing"

/-- Return value of `getManifest`.  The TypeScript code casts the parsed
value with `as Manifest` — a compile-time assertion with no runtime
check — so the model keeps the raw JSON value; `updatedAt` is the
`updated_at` property access on it. -/
structure ManifestResult where
  manifest : Json
  etag : Option String
  updatedAt : Option Json
  metrics : GithubFetchMetrics

/-- Return value of `getDailyDataset`; the `as T[]` cast performs no
runtime check, so the model keeps the raw JSON value. -/
structure DailyDatasetResult where
  data : Json
  etag : Option String
  lastModified : Option String
  metrics : GithubFetchMetrics

/-- Outcome of one dataset-accessor call. -/
structure AccessorOutcome (α : Type) where
  result : Except JsException α
  state : GithubState
  originCalls : Nat

/-- `getManifest` (`src/github.ts:221-237`).  `manifestTtlSeconds` is the
module-level `Number(process.env.MANIFEST_TTL_SECONDS ?? '60')`. -/
def getManifest (env : Env) (now : Nat) (origin : Origin) (jparse : JsonParse)
    (manifestTtlSeconds : Nat) (dataset : Dataset) (st : GithubState) :
    AccessorOutcome ManifestResult :=
  let out := fetchResource env now origin
    { ttlSeconds := manifestTtlSeconds, source := "manifest:" ++ datasetName dataset,
      path := "meta/" ++ datasetName dataset ++ "_manifest.json" } st
  match out.result with
  | .error e => { result := .error e, state := out.state, originCalls := out.originCalls }
  | .ok r =>
    match parseJson jparse r.buffer ("meta/" ++ datasetName dataset ++ "_manifest.json") with
    | .error e => { result := .error e, state := out.state, originCalls := out.originCalls }
    | .ok m =>
      { result := .ok { manifest := m, etag := r.etag,
                        updatedAt := m.getField "updated_at", metrics := r.metrics },
        state := out.state, originCalls := out.originCalls }

/-- `getDailyDataset` (`src/github.ts:239-255`).  `dataTtlSeconds` is the
module-level `Number(process.env.DATA_TTL_SECONDS ?? '300')`. -/
def getDailyDataset (env : Env) (now : Nat) (origin : Origin) (jparse : JsonParse)
    (dataTtlSeconds : Nat) (dataset : Dataset) (date : String) (st : GithubState) :
    AccessorOutcome DailyDatasetResult :=
  let out := fetchResource env now origin
    { ttlSeconds := dataTtlSeconds, source := datasetName dataset ++ ":" ++ date,
      path := "data/" ++ datasetName dataset ++ "/" ++ date ++ ".json" } st
  match out.result with
  | .error e => { result := .error e, state := out.state, originCalls := out.originCalls }
  | .ok r =>
    match parseJson jparse r.buffer
        ("data/" ++ datasetName dataset ++ "/" ++ date ++ ".json") with
    | .error e => { result := .error e, state := out.state, originCalls := out.originCalls }
    | .ok m =>
      { result := .ok { data := m, etag := r.etag, lastModified := r.lastModified,
                        metrics := r.metrics },
        state := out.state, originCalls := out.originCalls }

/-- `invalidateCache` (`src/github.ts:257-259`). -/
def invalidateCache (st : GithubState) : GithubState :=
  { st with cache := [] }

/-- `resetGithubConfig` (`src/github.ts:261-265`). -/
def resetGithubConfig (st : GithubState) : GithubState :=
  { st with config := { cachedOwner := none, cachedRepo := none, cachedBranch := none } }


/-! ### Concrete fixtures (mirroring the repository's vitest setup) -/

def envA : Env := { githubOwner := some "test-owner", githubRepo := some "test-repo" }

def envNoOwner : Env := { githubRepo := some "test-repo" }

def optsA : FetchOptions :=
  { ttlSeconds := 1, source := "lending:2025-09-29", path := "data/lending/2025-09-29.json" }

def keyA : String := cacheKey optsA.source optsA.path

def entryA : CacheEntry :=
  { body := "[\x7b\"protocol\":\"Vesu\"\x7d]", etag := some "etag-1",
    contentType := some "application/json", statusCode := some 200 }

def stEmpty : GithubState := { cache := [], config := {} }

/-- A state whose cache holds `entryA` under `keyA`, expiring at 1000 ms. -/
def stStale : GithubState := { cache := [(keyA, entryA, 1000)], config := {} }

def origin200 : Origin := fun _ _ => .response
  { statusCode := 200, etag := some "etag-1", contentType := some "application/json",
    body := "[\x7b\"protocol\":\"Vesu\"\x7d]" }

def origin502 : Origin := fun _ _ => .response { statusCode := 502, body := "bad gateway" }

def origin404 : Origin := fun _ _ => .response { statusCode := 404, body := "404: Not Found" }

def origin301 : Origin := fun _ _ => .response { statusCode := 301, body := "redirect" }

/-- A 304 origin echoing the validator it was sent, as the vitest 304
scenario does. -/
def origin304 : Origin := fun _ v => .response { statusCode := 304, etag := v }

def originBoom : Origin := fun _ _ => .transportFailure "connect ECONNREFUSED"

/-- A `JSON.parse` oracle that fails on every input. -/
def jparseFail : JsonParse := fun _ => .error "Unexpected token"

/-- A `JSON.parse` oracle returning the number `42`: valid JSON that is
not `Manifest`-shaped. -/
def jparse42 : JsonParse := fun _ => .ok (Json.num 42)

/-- A constant 304 origin (no validator echo). -/
def origin304c : Origin := fun _ _ => .response { statusCode := 304 }

def cfgOwn : ConfigCache := { cachedOwner := some "test-owner" }

def cfgOwnRepo : ConfigCache :=
  { cachedOwner := some "test-owner", cachedRepo := some "test-repo" }

def resp200 : HttpResponse :=
  { statusCode := 200, etag := some "etag-1", contentType := some "application/json",
    body := "[\x7b\"protocol\":\"Vesu\"\x7d]" }

def resp502 : HttpResponse := { statusCode := 502, body := "bad gateway" }

def resp404 : HttpResponse := { statusCode := 404, body := "404: Not Found" }

def resp301 : HttpResponse := { statusCode := 301, body := "redirect" }

def resp304c : HttpResponse := { statusCode := 304 }

/-- The 304 reply `origin304` gives to a conditional request carrying
`etag-1`. -/
def resp304A : HttpResponse := { statusCode := 304, etag := some "etag-1" }

/-- The result of a first, cold `fetchResource envA 0 origin200 optsA stEmpty`. -/
def r1A : FetchResult :=
  { buffer := "[\x7b\"protocol\":\"Vesu\"\x7d]", etag := some "etag-1", lastModified := none,
    contentType := some "application/json",
    metrics := { cacheHit := false, upstreamStatus := 200, servedStale := false,
                 source := "lending:2025-09-29" } }

/-- The result of a cold manifest fetch against `origin200`. -/
def rManifestA : FetchResult :=
  { buffer := "[\x7b\"protocol\":\"Vesu\"\x7d]", etag := some "etag-1", lastModified := none,
    contentType := some "application/json",
    metrics := { cacheHit := false, upstreamStatus := 200, servedStale := false,
                 source := "manifest:lending" } }

/-- The result of a cold daily-dataset fetch against `origin200`. -/
def rDailyA : FetchResult :=
  { buffer := "[\x7b\"protocol\":\"Vesu\"\x7d]", etag := some "etag-1", lastModified := none,
    contentType := some "application/json",
    metrics := { cacheHit := false, upstreamStatus := 200, servedStale := false,
                 source := "lending:2025-10-01" } }

/-! ### Equation lemmas for the branches of the fetch algorithm -/

theorem fetchResource_fresh_eq (env : Env) (now : Nat) (origin : Origin) (opts : FetchOptions)
    (st : GithubState) (entry : CacheEntry)
    (hc : cacheGetAllowStale st.cache (cacheKey opts.source opts.path) = some entry)
    (hf : 0 < cacheRemainingTTL st.cache (cacheKey opts.source opts.path) now) :
    fetchResource env now origin opts st =
      { result := .ok
          { buffer := entry.body, etag := entry.etag, lastModified := entry.lastModified,
            contentType := entry.contentType,
            metrics := { cacheHit := true, upstreamStatus := entry.statusCode.getD 200,
                         servedStale := false, source := opts.source } },
        state := st, originCalls := 0 } := by
  unfold fetchResource
  rw [hc]
  simp [hf]

theorem fetchResource_stale_eq (env : Env) (now : Nat) (origin : Origin) (opts : FetchOptions)
    (st : GithubState) (entry : CacheEntry)
    (hc : cacheGetAllowStale st.cache (cacheKey opts.source opts.path) = some entry)
    (hf : ¬ 0 < cacheRemainingTTL st.cache (cacheKey opts.source opts.path) now) :
    fetchResource env now origin opts st =
      fetchFromOrigin env now origin opts st (cacheKey opts.source opts.path) (some entry) := by
  unfold fetchResource
  rw [hc]
  simp [hf]

theorem fetchResource_miss_eq (env : Env) (now : Nat) (origin : Origin) (opts : FetchOptions)
    (st : GithubState)
    (hc : cacheGetAllowStale st.cache (cacheKey opts.source opts.path) = none) :
    fetchResource env now origin opts st =
      fetchFromOrigin env now origin opts st (cacheKey opts.source opts.path) none := by
  unfold fetchResource
  rw [hc]

theorem fetchFromOrigin_owner_error_eq (env : Env) (now : Nat) (origin : Origin)
    (opts : FetchOptions) (st : GithubState) (key : String) (cached : Option CacheEntry)
    (e : JsException) (ho : getOwner env st.config = .error e) :
    fetchFromOrigin env now origin opts st key cached =
      { result := .error e, state := st, originCalls := 0 } := by
  unfold fetchFromOrigin
  rw [ho]

theorem fetchFromOrigin_repo_error_eq (env : Env) (now : Nat) (origin : Origin)
    (opts : FetchOptions) (st : GithubState) (key : String) (cached : Option CacheEntry)
    (owner : String) (cfg1 : ConfigCache) (e : JsException)
    (ho : getOwner env st.config = .ok (owner, cfg1))
    (hr : getRepo env cfg1 = .error e) :
    fetchFromOrigin env now origin opts st key cached =
      { result := .error e, state := { st with config := cfg1 }, originCalls := 0 } := by
  unfold fetchFromOrigin
  rw [ho]
  simp only []
  rw [hr]

theorem fetchFromOrigin_transport_eq (env : Env) (now : Nat) (origin : Origin)
    (opts : FetchOptions) (st : GithubState) (key : String) (cached : Option CacheEntry)
    (owner repo : String) (cfg1 cfg2 : ConfigCache) (msg : String)
    (ho : getOwner env st.config = .ok (owner, cfg1))
    (hr : getRepo env cfg1 = .ok (repo, cfg2))
    (ht : origin (buildUrl (stripTrailingSlash (env.rawBase.getD DEFAULT_RAW_BASE)) owner repo
            (getBranch env cfg2).1 opts.path) (validatorOf cached) = .transportFailure msg) :
    fetchFromOrigin env now origin opts st key cached =
      { result := .error (.transportThrown msg),
        state := { st with config := (getBranch env cfg2).2 }, originCalls := 1 } := by
  unfold fetchFromOrigin
  rw [ho]
  simp only []
  rw [hr]
  simp only []
  rw [ht]

theorem fetchFromOrigin_response_eq (env : Env) (now : Nat) (origin : Origin)
    (opts : FetchOptions) (st : GithubState) (key : String) (cached : Option CacheEntry)
    (owner repo : String) (cfg1 cfg2 : ConfigCache) (r : HttpResponse)
    (ho : getOwner env st.config = .ok (owner, cfg1))
    (hr : getRepo env cfg1 = .ok (repo, cfg2))
    (ht : origin (buildUrl (stripTrailingSlash (env.rawBase.getD DEFAULT_RAW_BASE)) owner repo
            (getBranch env cfg2).1 opts.path) (validatorOf cached) = .response r) :
    fetchFromOrigin env now origin opts st key cached =
      handleResponse now opts ({ st with config := (getBranch env cfg2).2 }) key cached r := by
  unfold fetchFromOrigin
  rw [ho]
  simp only []
  rw [hr]
  simp only []
  rw [ht]

theorem handleResponse_revalidate_eq (now : Nat) (opts : FetchOptions) (st1 : GithubState)
    (key : String) (entry : CacheEntry) (r : HttpResponse) (h : r.statusCode = 304) :
    handleResponse now opts st1 key (some entry) r =
      { result := .ok
          { buffer := entry.body, etag := entry.etag, lastModified := entry.lastModified,
            contentType := entry.contentType,
            metrics := { cacheHit := true, upstreamStatus := r.statusCode,
                         servedStale := false, source := opts.source } },
        state := { st1 with
                   cache := cacheSet st1.cache key
                              ({ entry with statusCode := some r.statusCode })
                              (now + opts.ttlSeconds * 1000) },
        originCalls := 1 } := by
  simp only [handleResponse]
  rw [if_pos h]

theorem handleResponse_stale_eq (now : Nat) (opts : FetchOptions) (st1 : GithubState)
    (key : String) (entry : CacheEntry) (r : HttpResponse)
    (h304 : r.statusCode ≠ 304) (herr : r.statusCode = 404 ∨ 400 ≤ r.statusCode) :
    handleResponse now opts st1 key (some entry) r =
      { result := .ok
          { buffer := entry.body, etag := entry.etag, lastModified := entry.lastModified,
            contentType := entry.contentType,
            metrics := { cacheHit := true, upstreamStatus := r.statusCode,
                         servedStale := true, source := opts.source } },
        state := st1, originCalls := 1 } := by
  simp only [handleResponse]
  rw [if_neg h304, if_pos herr]

theorem handleResponse_refresh_eq (now : Nat) (opts : FetchOptions) (st1 : GithubState)
    (key : String) (entry : CacheEntry) (r : HttpResponse)
    (h304 : r.statusCode ≠ 304) (herr : ¬ (r.statusCode = 404 ∨ 400 ≤ r.statusCode)) :
    handleResponse now opts st1 key (some entry) r =
      { result := .ok
          { buffer := r.body, etag := r.etag, lastModified := r.lastModified,
            contentType := r.contentType,
            metrics := { cacheHit := false, upstreamStatus := r.statusCode,
                         servedStale := false, source := opts.source } },
        state := { st1 with
                   cache := cacheSet st1.cache key (entryOfResponse r)
                              (now + opts.ttlSeconds * 1000) },
        originCalls := 1 } := by
  simp only [handleResponse]
  rw [if_neg h304, if_neg herr]

theorem handleResponse_notFound_eq (now : Nat) (opts : FetchOptions) (st1 : GithubState)
    (key : String) (r : HttpResponse) (h : r.statusCode = 404) :
    handleResponse now opts st1 key none r =
      { result := .error (.upstreamNotFound ("Resource not found upstream: " ++ opts.path)),
        state := st1, originCalls := 1 } := by
  simp only [handleResponse]
  rw [if_pos h]

theorem handleResponse_unavailable_eq (now : Nat) (opts : FetchOptions) (st1 : GithubState)
    (key : String) (r : HttpResponse) (h404 : r.statusCode ≠ 404) (h4 : 400 ≤ r.statusCode) :
    handleResponse now opts st1 key none r =
      { result := .error (.upstreamUnavailable ("Upstream request failed for " ++ opts.path)
                            r.statusCode),
        state := st1, originCalls := 1 } := by
  simp only [handleResponse]
  rw [if_neg h404, if_pos h4]

theorem handleResponse_store_eq (now : Nat) (opts : FetchOptions) (st1 : GithubState)
    (key : String) (r : HttpResponse) (h404 : r.statusCode ≠ 404) (h4 : ¬ 400 ≤ r.statusCode) :
    handleResponse now opts st1 key none r =
      { result := .ok
          { buffer := r.body, etag := r.etag, lastModified := r.lastModified,
            contentType := r.contentType,
            metrics := { cacheHit := false, upstreamStatus := r.statusCode,
                         servedStale := false, source := opts.source } },
        state := { st1 with
                   cache := cacheSet st1.cache key (entryOfResponse r)
                              (now + opts.ttlSeconds * 1000) },
        originCalls := 1 } := by
  simp only [handleResponse]
  rw [if_neg h404, if_neg h4]

/-! ### Lemmas about the cache store -/

theorem cacheGetAllowStale_cacheSet_self (c : CacheStore) (key : String) (e : CacheEntry)
    (expiresAt : Nat) : cacheGetAllowStale (cacheSet c key e expiresAt) key = some e := by
  simp [cacheGetAllowStale, cacheSet, List.find?_cons]

theorem cacheRemainingTTL_cacheSet_self (c : CacheStore) (key : String) (e : CacheEntry)
    (expiresAt : Nat) (t : Nat) :
    cacheRemainingTTL (cacheSet c key e expiresAt) key t = (expiresAt : Int) - (t : Int) := by
  simp [cacheRemainingTTL, cacheSet, List.find?_cons]

theorem find?_filter_ne_key (l : CacheStore) (k key : String) (h : k ≠ key) :
    (l.filter (fun p => p.1 != key)).find? (fun p => p.1 == k) =
      l.find? (fun p => p.1 == k) := by
  induction l with
  | nil => rfl
  | cons a t ih =>
    by_cases ha : a.1 = key
    · rw [List.filter_cons_of_neg (by simp [ha]),
          List.find?_cons_of_neg t (by simp [ha, Ne.symm h]), ih]
    · rw [List.filter_cons_of_pos (by simp [ha])]
      by_cases hak : a.1 = k
      · rw [List.find?_cons_of_pos (List.filter (fun p => p.1 != key) t) (by simp [hak]),
            List.find?_cons_of_pos t (by simp [hak])]
      · rw [List.find?_cons_of_neg (List.filter (fun p => p.1 != key) t) (by simp [hak]),
            List.find?_cons_of_neg t (by simp [hak]), ih]

theorem cacheGetAllowStale_cacheSet_other (c : CacheStore) (key k : String) (e : CacheEntry)
    (expiresAt : Nat) (h : k ≠ key) :
    cacheGetAllowStale (cacheSet c key e expiresAt) k = cacheGetAllowStale c k := by
  unfold cacheGetAllowStale cacheSet
  rw [List.find?_cons_of_neg (List.filter (fun p => p.1 != key) c) (by simp [Ne.symm h]),
      find?_filter_ne_key c k key h]

/-! ### Invariant: every returned payload is the payload of the cache
entry left under the fetched key -/

theorem fetchFromOrigin_ok_cache_body (env : Env) (now : Nat) (origin : Origin)
    (opts : FetchOptions) (st : GithubState) (key : String) (cached : Option CacheEntry)
    (r : FetchResult)
    (hcached : ∀ e, cached = some e → cacheGetAllowStale st.cache key = some e)
    (hok : (fetchFromOrigin env now origin opts st key cached).result = .ok r) :
    ∃ e, cacheGetAllowStale (fetchFromOrigin env now origin opts st key cached).state.cache
           key = some e ∧ e.body = r.buffer := by
  rcases ho : getOwner env st.config with e0 | ⟨owner, cfg1⟩
  · rw [fetchFromOrigin_owner_error_eq env now origin opts st key cached e0 ho] at hok
    exact absurd hok (by simp)
  rcases hr : getRepo env cfg1 with e0 | ⟨repo, cfg2⟩
  · rw [fetchFromOrigin_repo_error_eq env now origin opts st key cached owner cfg1 e0 ho hr]
      at hok
    exact absurd hok (by simp)
  rcases hresp : origin (buildUrl (stripTrailingSlash (env.rawBase.getD DEFAULT_RAW_BASE))
      owner repo (getBranch env cfg2).1 opts.path) (validatorOf cached) with resp | msg
  · rw [fetchFromOrigin_response_eq env now origin opts st key cached owner repo cfg1 cfg2
        resp ho hr hresp] at hok ⊢
    rcases cached with _ | entry
    · by_cases h404 : resp.statusCode = 404
      · rw [handleResponse_notFound_eq _ _ _ _ _ h404] at hok
        exact absurd hok (by simp)
      by_cases h4 : 400 ≤ resp.statusCode
      · rw [handleResponse_unavailable_eq _ _ _ _ _ h404 h4] at hok
        exact absurd hok (by simp)
      rw [handleResponse_store_eq _ _ _ _ _ h404 h4] at hok ⊢
      cases Except.ok.inj hok
      exact ⟨entryOfResponse resp, cacheGetAllowStale_cacheSet_self _ _ _ _, rfl⟩
    · by_cases h304 : resp.statusCode = 304
      · rw [handleResponse_revalidate_eq _ _ _ _ _ _ h304] at hok ⊢
        cases Except.ok.inj hok
        exact ⟨{ entry with statusCode := some resp.statusCode },
               cacheGetAllowStale_cacheSet_self _ _ _ _, rfl⟩
      by_cases herr : resp.statusCode = 404 ∨ 400 ≤ resp.statusCode
      · rw [handleResponse_stale_eq _ _ _ _ _ _ h304 herr] at hok ⊢
        cases Except.ok.inj hok
        exact ⟨entry, hcached entry rfl, rfl⟩
      · rw [handleResponse_refresh_eq _ _ _ _ _ _ h304 herr] at hok ⊢
        cases Except.ok.inj hok
        exact ⟨entryOfResponse resp, cacheGetAllowStale_cacheSet_self _ _ _ _, rfl⟩
  · rw [fetchFromOrigin_transport_eq env now origin opts st key cached owner repo cfg1 cfg2
        msg ho hr hresp] at hok
    exact absurd hok (by simp)

theorem fetchResource_ok_cache_body (env : Env) (now : Nat) (origin : Origin)
    (opts : FetchOptions) (st : GithubState) (r : FetchResult)
    (hok : (fetchResource env now origin opts st).result = .ok r) :
    ∃ e, cacheGetAllowStale (fetchResource env now origin opts st).state.cache
           (cacheKey opts.source opts.path) = some e ∧ e.body = r.buffer := by
  rcases hc : cacheGetAllowStale st.cache (cacheKey opts.source opts.path) with _ | entry
  · rw [fetchResource_miss_eq env now origin opts st hc] at hok ⊢
    exact fetchFromOrigin_ok_cache_body env now origin opts st _ none r
      (by intro e h; cases h) hok
  · by_cases hf : 0 < cacheRemainingTTL st.cache (cacheKey opts.source opts.path) now
    · rw [fetchResource_fresh_eq env now origin opts st entry hc hf] at hok ⊢
      cases Except.ok.inj hok
      exact ⟨entry, hc, rfl⟩
    · rw [fetchResource_stale_eq env now origin opts st entry hc hf] at hok ⊢
      refine fetchFromOrigin_ok_cache_body env now origin opts st _ (some entry) r ?_ hok
      intro e h
      injection h with h2
      subst h2
      exact hc

/-! ### Claims -/

/-- C3: for a resource with an existing cache entry whose TTL has elapsed,
an origin response with any status ≥ 400 (404 included) makes
`fetchResource` return the previously cached payload bytes unchanged with
provenance cacheHit = true, servedStale = true, upstreamStatus = the
observed code, and raise no error. -/
theorem stale_serve_on_error_status (env : Env) (now : Nat) (origin : Origin)
    (opts : FetchOptions) (st : GithubState) (entry : CacheEntry) (resp : HttpResponse)
    (owner repo : String) (cfg1 cfg2 : ConfigCache)
    (hc : cacheGetAllowStale st.cache (cacheKey opts.source opts.path) = some entry)
    (hexp : ¬ 0 < cacheRemainingTTL st.cache (cacheKey opts.source opts.path) now)
    (ho : getOwner env st.config = .ok (owner, cfg1))
    (hr : getRepo env cfg1 = .ok (repo, cfg2))
    (horigin : ∀ u v, origin u v = .response resp)
    (h4 : 400 ≤ resp.statusCode) :
    (fetchResource env now origin opts st).result = .ok
      { buffer := entry.body, etag := entry.etag, lastModified := entry.lastModified,
        contentType := entry.contentType,
        metrics := { cacheHit := true, upstreamStatus := resp.statusCode,
                     servedStale := true, source := opts.source } } := by
  have h304 : resp.statusCode ≠ 304 := by omega
  rw [fetchResource_stale_eq env now origin opts st entry hc hexp,
      fetchFromOrigin_response_eq env now origin opts st _ _ owner repo cfg1 cfg2 resp ho hr
        (horigin _ _),
      handleResponse_stale_eq _ _ _ _ _ _ h304 (Or.inr h4)]

theorem stale_serve_on_error_status_witness :
    cacheGetAllowStale stStale.cache (cacheKey optsA.source optsA.path) = some entryA ∧
    ¬ 0 < cacheRemainingTTL stStale.cache (cacheKey optsA.source optsA.path) 1100 ∧
    (fetchResource envA 1100 origin502 optsA stStale).result = .ok
      { buffer := entryA.body, etag := entryA.etag, lastModified := entryA.lastModified,
        contentType := entryA.contentType,
        metrics := { cacheHit := true, upstreamStatus := 502,
                     servedStale := true, source := optsA.source } } :=
  ⟨by decide, by decide,
   stale_serve_on_error_status envA 1100 origin502 optsA stStale entryA resp502
     "test-owner" "test-repo" cfgOwn cfgOwnRepo (by decide) (by decide) rfl rfl
     (fun _ _ => rfl) (by decide)⟩

/-- C5: for a resource with no cache entry, an origin 404 makes
`fetchResource` throw `UpstreamNotFoundError`, return no payload, and
leave the cache store unchanged. -/
theorem first_miss_404_fails (env : Env) (now : Nat) (origin : Origin)
    (opts : FetchOptions) (st : GithubState) (resp : HttpResponse)
    (owner repo : String) (cfg1 cfg2 : ConfigCache)
    (hc : cacheGetAllowStale st.cache (cacheKey opts.source opts.path) = none)
    (ho : getOwner env st.config = .ok (owner, cfg1))
    (hr : getRepo env cfg1 = .ok (repo, cfg2))
    (horigin : ∀ u v, origin u v = .response resp)
    (h404 : resp.statusCode = 404) :
    (fetchResource env now origin opts st).result =
      .error (.upstreamNotFound ("Resource not found upstream: " ++ opts.path)) ∧
    (fetchResource env now origin opts st).state.cache = st.cache := by
  rw [fetchResource_miss_eq env now origin opts st hc,
      fetchFromOrigin_response_eq env now origin opts st _ _ owner repo cfg1 cfg2 resp ho hr
        (horigin _ _),
      handleResponse_notFound_eq _ _ _ _ _ h404]
  exact ⟨rfl, rfl⟩

theorem first_miss_404_fails_witness :
    cacheGetAllowStale stEmpty.cache (cacheKey optsA.source optsA.path) = none ∧
    (fetchResource envA 0 origin404 optsA stEmpty).result =
      .error (.upstreamNotFound ("Resource not found upstream: " ++ optsA.path)) ∧
    (fetchResource envA 0 origin404 optsA stEmpty).state.cache = stEmpty.cache :=
  ⟨rfl,
   (first_miss_404_fails envA 0 origin404 optsA stEmpty resp404
     "test-owner" "test-repo" cfgOwn cfgOwnRepo rfl rfl rfl (fun _ _ => rfl) rfl).1,
   (first_miss_404_fails envA 0 origin404 optsA stEmpty resp404
     "test-owner" "test-repo" cfgOwn cfgOwnRepo rfl rfl rfl (fun _ _ => rfl) rfl).2⟩

/-- C10: if the origin returns 304 while no cache entry exists for the
key, `fetchResource` falls through to the success path: it stores the 304
response body as a new entry with the class TTL and returns it with
provenance cacheHit = false, servedStale = false, upstreamStatus = 304. -/
theorem cold_miss_304_stores_response (env : Env) (now : Nat) (origin : Origin)
    (opts : FetchOptions) (st : GithubState) (resp : HttpResponse)
    (owner repo : String) (cfg1 cfg2 : ConfigCache)
    (hc : cacheGetAllowStale st.cache (cacheKey opts.source opts.path) = none)
    (ho : getOwner env st.config = .ok (owner, cfg1))
    (hr : getRepo env cfg1 = .ok (repo, cfg2))
    (horigin : ∀ u v, origin u v = .response resp)
    (h304 : resp.statusCode = 304) :
    (fetchResource env now origin opts st).result = .ok
      { buffer := resp.body, etag := resp.etag, lastModified := resp.lastModified,
        contentType := resp.contentType,
        metrics := { cacheHit := false, upstreamStatus := 304,
                     servedStale := false, source := opts.source } } ∧
    cacheGetAllowStale (fetchResource env now origin opts st).state.cache
      (cacheKey opts.source opts.path) = some (entryOfResponse resp) ∧
    cacheRemainingTTL (fetchResource env now origin opts st).state.cache
      (cacheKey opts.source opts.path) now = (opts.ttlSeconds * 1000 : Int) := by
  have h404 : resp.statusCode ≠ 404 := by omega
  have h4 : ¬ 400 ≤ resp.statusCode := by omega
  rw [fetchResource_miss_eq env now origin opts st hc,
      fetchFromOrigin_response_eq env now origin opts st _ _ owner repo cfg1 cfg2 resp ho hr
        (horigin _ _),
      handleResponse_store_eq _ _ _ _ _ h404 h4]
  refine ⟨by rw [h304], ?_, ?_⟩
  · exact cacheGetAllowStale_cacheSet_self _ _ _ _
  · rw [cacheRemainingTTL_cacheSet_self]
    push_cast
    ring

theorem cold_miss_304_stores_response_witness :
    cacheGetAllowStale stEmpty.cache (cacheKey optsA.source optsA.path) = none ∧
    (fetchResource envA 0 origin304c optsA stEmpty).result = .ok
      { buffer := resp304c.body, etag := resp304c.etag, lastModified := resp304c.lastModified,
        contentType := resp304c.contentType,
        metrics := { cacheHit := false, upstreamStatus := 304,
                     servedStale := false, source := optsA.source } } ∧
    cacheGetAllowStale (fetchResource envA 0 origin304c optsA stEmpty).state.cache
      (cacheKey optsA.source optsA.path) = some (entryOfResponse resp304c) ∧
    cacheRemainingTTL (fetchResource envA 0 origin304c optsA stEmpty).state.cache
      (cacheKey optsA.source optsA.path) 0 = (optsA.ttlSeconds * 1000 : Int) := by
  have h := cold_miss_304_stores_response envA 0 origin304c optsA stEmpty resp304c
    "test-owner" "test-repo" cfgOwn cfgOwnRepo rfl rfl rfl (fun _ _ => rfl) rfl
  exact ⟨rfl, h.1, h.2.1, h.2.2⟩

/-- C2: a second `fetchResource` for the same (source, path) key while the
entry left by a first successful call is still fresh issues zero origin
calls and returns a payload byte-identical to the first call's, with
provenance cacheHit = true, servedStale = false, upstreamStatus = the
entry's last-known status (or 200 when none was recorded); the state is
unchanged. -/
theorem fresh_hit_second_fetch (env1 env2 : Env) (now1 now2 : Nat)
    (origin1 origin2 : Origin) (opts : FetchOptions) (st0 : GithubState) (r1 : FetchResult)
    (h1 : (fetchResource env1 now1 origin1 opts st0).result = .ok r1)
    (hfresh : 0 < cacheRemainingTTL (fetchResource env1 now1 origin1 opts st0).state.cache
                (cacheKey opts.source opts.path) now2) :
    ∃ e, cacheGetAllowStale (fetchResource env1 now1 origin1 opts st0).state.cache
           (cacheKey opts.source opts.path) = some e ∧
      (fetchResource env2 now2 origin2 opts
          (fetchResource env1 now1 origin1 opts st0).state).originCalls = 0 ∧
      (fetchResource env2 now2 origin2 opts
          (fetchResource env1 now1 origin1 opts st0).state).result = .ok
        { buffer := r1.buffer, etag := e.etag, lastModified := e.lastModified,
          contentType := e.contentType,
          metrics := { cacheHit := true, upstreamStatus := e.statusCode.getD 200,
                       servedStale := false, source := opts.source } } ∧
      (fetchResource env2 now2 origin2 opts
          (fetchResource env1 now1 origin1 opts st0).state).state =
        (fetchResource env1 now1 origin1 opts st0).state := by
  obtain ⟨e, he, hbody⟩ := fetchResource_ok_cache_body env1 now1 origin1 opts st0 r1 h1
  refine ⟨e, he, ?_, ?_, ?_⟩
  · rw [fetchResource_fresh_eq env2 now2 origin2 opts _ e he hfresh]
  · rw [fetchResource_fresh_eq env2 now2 origin2 opts _ e he hfresh, hbody]
  · rw [fetchResource_fresh_eq env2 now2 origin2 opts _ e he hfresh]

theorem fresh_hit_second_fetch_witness :
    (fetchResource envA 0 origin200 optsA stEmpty).result = .ok r1A ∧
    0 < cacheRemainingTTL (fetchResource envA 0 origin200 optsA stEmpty).state.cache
          (cacheKey optsA.source optsA.path) 500 ∧
    ∃ e, cacheGetAllowStale (fetchResource envA 0 origin200 optsA stEmpty).state.cache
           (cacheKey optsA.source optsA.path) = some e ∧
      (fetchResource envA 500 origin200 optsA
          (fetchResource envA 0 origin200 optsA stEmpty).state).originCalls = 0 ∧
      (fetchResource envA 500 origin200 optsA
          (fetchResource envA 0 origin200 optsA stEmpty).state).result = .ok
        { buffer := r1A.buffer, etag := e.etag, lastModified := e.lastModified,
          contentType := e.contentType,
          metrics := { cacheHit := true, upstreamStatus := e.statusCode.getD 200,
                       servedStale := false, source := optsA.source } } ∧
      (fetchResource envA 500 origin200 optsA
          (fetchResource envA 0 origin200 optsA stEmpty).state).state =
        (fetchResource envA 0 origin200 optsA stEmpty).state :=
  ⟨rfl, by decide,
   fresh_hit_second_fetch envA envA 0 500 origin200 origin200 optsA stEmpty r1A rfl
     (by decide)⟩

/-- C4: with a cached entry carrying entity tag E and past its freshness
window, an origin 304 answer to the conditional request carrying
If-None-Match: E resets the entry's TTL clock without altering the
payload and returns the pre-revalidation payload byte-identical, with
provenance cacheHit = true, servedStale = false, upstreamStatus = 304. -/
theorem revalidation_304_extends_freshness (env : Env) (now : Nat) (origin : Origin)
    (opts : FetchOptions) (st : GithubState) (entry : CacheEntry) (t : String)
    (resp : HttpResponse) (owner repo : String) (cfg1 cfg2 : ConfigCache)
    (hc : cacheGetAllowStale st.cache (cacheKey opts.source opts.path) = some entry)
    (hexp : ¬ 0 < cacheRemainingTTL st.cache (cacheKey opts.source opts.path) now)
    (hetag : entry.etag = some t) (ht : t ≠ "")
    (ho : getOwner env st.config = .ok (owner, cfg1))
    (hr : getRepo env cfg1 = .ok (repo, cfg2))
    (horigin : origin (buildUrl (stripTrailingSlash (env.rawBase.getD DEFAULT_RAW_BASE))
                 owner repo (getBranch env cfg2).1 opts.path) (some t) = .response resp)
    (h304 : resp.statusCode = 304) :
    (fetchResource env now origin opts st).result = .ok
      { buffer := entry.body, etag := entry.etag, lastModified := entry.lastModified,
        contentType := entry.contentType,
        metrics := { cacheHit := true, upstreamStatus := 304,
                     servedStale := false, source := opts.source } } ∧
    cacheGetAllowStale (fetchResource env now origin opts st).state.cache
      (cacheKey opts.source opts.path) = some ({ entry with statusCode := some 304 }) ∧
    cacheRemainingTTL (fetchResource env now origin opts st).state.cache
      (cacheKey opts.source opts.path) now = (opts.ttlSeconds * 1000 : Int) := by
  have hval : validatorOf (some entry) = some t := by
    simp [validatorOf, hetag, isFalsy, ht]
  rw [fetchResource_stale_eq env now origin opts st entry hc hexp,
      fetchFromOrigin_response_eq env now origin opts st _ _ owner repo cfg1 cfg2 resp ho hr
        (by rw [hval]; exact horigin),
      handleResponse_revalidate_eq _ _ _ _ _ _ h304]
  refine ⟨by rw [h304], ?_, ?_⟩
  · rw [h304]
    exact cacheGetAllowStale_cacheSet_self _ _ _ _
  · rw [cacheRemainingTTL_cacheSet_self]
    push_cast
    ring

theorem revalidation_304_extends_freshness_witness :
    cacheGetAllowStale stStale.cache (cacheKey optsA.source optsA.path) = some entryA ∧
    entryA.etag = some "etag-1" ∧
    origin304 (buildUrl (stripTrailingSlash (envA.rawBase.getD DEFAULT_RAW_BASE))
        "test-owner" "test-repo" (getBranch envA cfgOwnRepo).1 optsA.path)
      (some "etag-1") = .response resp304A ∧
    (fetchResource envA 1100 origin304 optsA stStale).result = .ok
      { buffer := entryA.body, etag := entryA.etag, lastModified := entryA.lastModified,
        contentType := entryA.contentType,
        metrics := { cacheHit := true, upstreamStatus := 304,
                     servedStale := false, source := optsA.source } } ∧
    cacheGetAllowStale (fetchResource envA 1100 origin304 optsA stStale).state.cache
      (cacheKey optsA.source optsA.path) = some ({ entryA with statusCode := some 304 }) ∧
    cacheRemainingTTL (fetchResource envA 1100 origin304 optsA stStale).state.cache
      (cacheKey optsA.source optsA.path) 1100 = (optsA.ttlSeconds * 1000 : Int) := by
  have h := revalidation_304_extends_freshness envA 1100 origin304 optsA stStale entryA
    "etag-1" resp304A "test-owner" "test-repo" cfgOwn cfgOwnRepo (by decide) (by decide)
    rfl (by decide) rfl rfl rfl rfl
  exact ⟨by decide, rfl, rfl, h.1, h.2.1, h.2.2⟩

/-- C1 counterexample: a cache entry exists for the key, the origin
request suffers a transport failure, yet `fetchResource` does not serve
the entry as stale — the transport exception itself reaches the caller,
and it is not an `UpstreamUnavailableError`. -/
theorem transport_failure_cex :
    cacheGetAllowStale stStale.cache (cacheKey optsA.source optsA.path) = some entryA ∧
    (fetchResource envA 1100 originBoom optsA stStale).result =
      .error (.transportThrown "connect ECONNREFUSED") :=
  ⟨rfl, rfl⟩

/-- C1 (amended): on a transport failure, whether or not a cached entry
exists for the key (as long as the entry is not fresh, so the origin is
contacted), the exception thrown by the origin client propagates
uncategorized out of `fetchResource`: no stale serve happens, no
`UpstreamUnavailableError` is raised, and the cache is untouched. -/
theorem transport_failure_propagates (env : Env) (now : Nat) (origin : Origin)
    (opts : FetchOptions) (st : GithubState) (owner repo : String)
    (cfg1 cfg2 : ConfigCache) (msg : String)
    (hnotfresh : cacheGetAllowStale st.cache (cacheKey opts.source opts.path) = none ∨
      ¬ 0 < cacheRemainingTTL st.cache (cacheKey opts.source opts.path) now)
    (ho : getOwner env st.config = .ok (owner, cfg1))
    (hr : getRepo env cfg1 = .ok (repo, cfg2))
    (horigin : ∀ u v, origin u v = .transportFailure msg) :
    (fetchResource env now origin opts st).result = .error (.transportThrown msg) ∧
    (fetchResource env now origin opts st).state.cache = st.cache := by
  rcases hnotfresh with hc | hexp
  · rw [fetchResource_miss_eq env now origin opts st hc,
        fetchFromOrigin_transport_eq env now origin opts st _ _ owner repo cfg1 cfg2 msg
          ho hr (horigin _ _)]
    exact ⟨rfl, rfl⟩
  · rcases hc2 : cacheGetAllowStale st.cache (cacheKey opts.source opts.path) with _ | entry
    · rw [fetchResource_miss_eq env now origin opts st hc2,
          fetchFromOrigin_transport_eq env now origin opts st _ _ owner repo cfg1 cfg2 msg
            ho hr (horigin _ _)]
      exact ⟨rfl, rfl⟩
    · rw [fetchResource_stale_eq env now origin opts st entry hc2 hexp,
          fetchFromOrigin_transport_eq env now origin opts st _ _ owner repo cfg1 cfg2 msg
            ho hr (horigin _ _)]
      exact ⟨rfl, rfl⟩

theorem transport_failure_propagates_witness :
    (¬ 0 < cacheRemainingTTL stStale.cache (cacheKey optsA.source optsA.path) 1100) ∧
    (fetchResource envA 1100 originBoom optsA stStale).result =
      .error (.transportThrown "connect ECONNREFUSED") ∧
    (fetchResource envA 1100 originBoom optsA stStale).state.cache = stStale.cache :=
  ⟨by decide,
   (transport_failure_propagates envA 1100 originBoom optsA stStale "test-owner" "test-repo"
     cfgOwn cfgOwnRepo "connect ECONNREFUSED" (Or.inr (by decide)) rfl rfl
     (fun _ _ => rfl)).1,
   (transport_failure_propagates envA 1100 originBoom optsA stStale "test-owner" "test-repo"
     cfgOwn cfgOwnRepo "connect ECONNREFUSED" (Or.inr (by decide)) rfl rfl
     (fun _ _ => rfl)).2⟩

/-- C7 counterexample: after an expired entry with last-seen-status 200 is
served stale on an origin 502, the cache still holds the entry with
last-seen-status 200 — the status field was not updated to 502. -/
theorem stale_error_no_status_update_cex :
    (fetchResource envA 1100 origin502 optsA stStale).result = .ok
      { buffer := entryA.body, etag := entryA.etag, lastModified := entryA.lastModified,
        contentType := entryA.contentType,
        metrics := { cacheHit := true, upstreamStatus := 502,
                     servedStale := true, source := optsA.source } } ∧
    cacheGetAllowStale (fetchResource envA 1100 origin502 optsA stStale).state.cache
      (cacheKey optsA.source optsA.path) = some entryA ∧
    entryA.statusCode = some 200 ∧ some 200 ≠ some 502 :=
  ⟨rfl, rfl, rfl, by decide⟩

/-- C7 (amended): when a fetch finds an existing (non-fresh) cache entry
and the origin answers with a status ≥ 400, the entry is not updated at
all: the cache store is left exactly as it was (payload and last-seen-
status both untouched); the observed status appears only in the returned
provenance, and the entry's payload is returned as stale. -/
theorem stale_serve_no_cache_write (env : Env) (now : Nat) (origin : Origin)
    (opts : FetchOptions) (st : GithubState) (entry : CacheEntry) (resp : HttpResponse)
    (owner repo : String) (cfg1 cfg2 : ConfigCache)
    (hc : cacheGetAllowStale st.cache (cacheKey opts.source opts.path) = some entry)
    (hexp : ¬ 0 < cacheRemainingTTL st.cache (cacheKey opts.source opts.path) now)
    (ho : getOwner env st.config = .ok (owner, cfg1))
    (hr : getRepo env cfg1 = .ok (repo, cfg2))
    (horigin : ∀ u v, origin u v = .response resp)
    (h4 : 400 ≤ resp.statusCode) :
    (fetchResource env now origin opts st).state.cache = st.cache ∧
    (fetchResource env now origin opts st).result = .ok
      { buffer := entry.body, etag := entry.etag, lastModified := entry.lastModified,
        contentType := entry.contentType,
        metrics := { cacheHit := true, upstreamStatus := resp.statusCode,
                     servedStale := true, source := opts.source } } := by
  have h304 : resp.statusCode ≠ 304 := by omega
  rw [fetchResource_stale_eq env now origin opts st entry hc hexp,
      fetchFromOrigin_response_eq env now origin opts st _ _ owner repo cfg1 cfg2 resp ho hr
        (horigin _ _),
      handleResponse_stale_eq _ _ _ _ _ _ h304 (Or.inr h4)]
  exact ⟨rfl, rfl⟩

theorem stale_serve_no_cache_write_witness :
    (fetchResource envA 1100 origin502 optsA stStale).state.cache = stStale.cache ∧
    (fetchResource envA 1100 origin502 optsA stStale).result = .ok
      { buffer := entryA.body, etag := entryA.etag, lastModified := entryA.lastModified,
        contentType := entryA.contentType,
        metrics := { cacheHit := true, upstreamStatus := 502,
                     servedStale := true, source := optsA.source } } :=
  stale_serve_no_cache_write envA 1100 origin502 optsA stStale entryA resp502
    "test-owner" "test-repo" cfgOwn cfgOwnRepo (by decide) (by decide) rfl rfl
    (fun _ _ => rfl) (by decide)

/-- C8 counterexample: with GITHUB_OWNER and GITHUB_REPO set but
GITHUB_BRANCH absent from the environment, the fetch does not fail with a
configuration error: it contacts the origin once (branch defaulting to
"main") and succeeds. -/
theorem missing_branch_no_failure_cex :
    envA.githubBranch = none ∧
    (fetchResource envA 0 origin200 optsA stEmpty).result = .ok r1A ∧
    (fetchResource envA 0 origin200 optsA stEmpty).originCalls = 1 :=
  ⟨rfl, rfl, rfl⟩

/-- C8 (amended): only the owner and repo identifiers are required: on a
fetch that must contact the origin (no fresh cache entry for the key,
whether the entry is absent or merely expired) with no memoized
owner/repo (e.g. after `resetGithubConfig`), if GITHUB_OWNER or
GITHUB_REPO is missing from the environment the fetch fails with a
configuration error (a plain `Error` naming the variable) before any
origin contact, leaving the cache unchanged; a missing GITHUB_BRANCH
does not fail — it defaults to "main". -/
theorem config_owner_repo_fail_fast (env : Env) (now : Nat) (origin : Origin)
    (opts : FetchOptions) (st : GithubState)
    (hnotfresh : cacheGetAllowStale st.cache (cacheKey opts.source opts.path) = none ∨
      ¬ 0 < cacheRemainingTTL st.cache (cacheKey opts.source opts.path) now)
    (hoc : isFalsy st.config.cachedOwner = true)
    (hrc : isFalsy st.config.cachedRepo = true)
    (henv : isFalsy env.githubOwner = true ∨ isFalsy env.githubRepo = true) :
    (∃ k2, (fetchResource env now origin opts st).result =
        .error (.genericError ("Missing required environment variable: " ++ k2)) ∧
      (k2 = "GITHUB_OWNER" ∨ k2 = "GITHUB_REPO")) ∧
    (fetchResource env now origin opts st).originCalls = 0 ∧
    (fetchResource env now origin opts st).state.cache = st.cache := by
  obtain ⟨cached, hred⟩ : ∃ cached, fetchResource env now origin opts st =
      fetchFromOrigin env now origin opts st (cacheKey opts.source opts.path) cached := by
    rcases hnotfresh with hc | hexp
    · exact ⟨none, fetchResource_miss_eq env now origin opts st hc⟩
    · rcases hc2 : cacheGetAllowStale st.cache (cacheKey opts.source opts.path) with _ | entry
      · exact ⟨none, fetchResource_miss_eq env now origin opts st hc2⟩
      · exact ⟨some entry, fetchResource_stale_eq env now origin opts st entry hc2 hexp⟩
  rw [hred]
  by_cases hoe : isFalsy env.githubOwner = true
  · have ho : getOwner env st.config =
        .error (.genericError ("Missing required environment variable: " ++ "GITHUB_OWNER")) := by
      simp [getOwner, requiredEnv, hoc, hoe]
    rw [fetchFromOrigin_owner_error_eq env now origin opts st _ _ _ ho]
    exact ⟨⟨"GITHUB_OWNER", rfl, Or.inl rfl⟩, rfl, rfl⟩
  · have hre : isFalsy env.githubRepo = true := henv.resolve_left hoe
    have ho : getOwner env st.config = .ok (env.githubOwner.getD "",
        { st.config with cachedOwner := some (env.githubOwner.getD "") }) := by
      simp [getOwner, requiredEnv, hoc, hoe]
    have hr : getRepo env ({ st.config with cachedOwner := some (env.githubOwner.getD "") }) =
        .error (.genericError ("Missing required environment variable: " ++ "GITHUB_REPO")) := by
      simp [getRepo, requiredEnv, hrc, hre]
    rw [fetchFromOrigin_repo_error_eq env now origin opts st _ _ _ _ _ ho hr]
    exact ⟨⟨"GITHUB_REPO", rfl, Or.inr rfl⟩, rfl, rfl⟩

theorem config_owner_repo_fail_fast_witness :
    cacheGetAllowStale stStale.cache (cacheKey optsA.source optsA.path) = some entryA ∧
    ¬ 0 < cacheRemainingTTL stStale.cache (cacheKey optsA.source optsA.path) 1100 ∧
    isFalsy stStale.config.cachedOwner = true ∧
    isFalsy envNoOwner.githubOwner = true ∧
    (∃ k2, (fetchResource envNoOwner 1100 origin200 optsA stStale).result =
        .error (.genericError ("Missing required environment variable: " ++ k2)) ∧
      (k2 = "GITHUB_OWNER" ∨ k2 = "GITHUB_REPO")) ∧
    (fetchResource envNoOwner 1100 origin200 optsA stStale).originCalls = 0 ∧
    (fetchResource envNoOwner 1100 origin200 optsA stStale).state.cache = stStale.cache := by
  have h := config_owner_repo_fail_fast envNoOwner 1100 origin200 optsA stStale
    (Or.inr (by decide)) rfl rfl (Or.inl rfl)
  exact ⟨by decide, by decide, rfl, rfl, h.1, h.2.1, h.2.2⟩

/-- C6 counterexample: an origin 301 response — not a 2xx — with an
existing (expired) cache entry overwrites the entry's payload bytes. -/
theorem payload_overwritten_by_301_cex :
    cacheGetAllowStale stStale.cache (cacheKey optsA.source optsA.path) = some entryA ∧
    cacheGetAllowStale (fetchResource envA 1100 origin301 optsA stStale).state.cache
      (cacheKey optsA.source optsA.path) =
      some { body := "redirect", statusCode := some 301 } ∧
    ("redirect" : String) ≠ entryA.body ∧
    ¬ (200 ≤ (301 : Nat) ∧ (301 : Nat) ≤ 299) :=
  ⟨rfl, rfl, by decide, by decide⟩

/-- C6 (amended): a cache entry's payload bytes are replaced only by an
origin response with status < 400 that is not a 304 revalidation of that
entry; 304 revalidations, every error response (status ≥ 400),
transport failures and configuration failures leave all entries' payload
bytes unchanged.  (A non-304 redirect status such as 301 does replace the
payload, so "2xx" in the original claim is too narrow.) -/
theorem payload_replacement_characterization (env : Env) (now : Nat) (origin : Origin)
    (opts : FetchOptions) (st : GithubState) (res : OriginResult)
    (horigin : ∀ u v, origin u v = res) (k : String) (e e2 : CacheEntry)
    (hold : cacheGetAllowStale st.cache k = some e)
    (hnew : cacheGetAllowStale (fetchResource env now origin opts st).state.cache k = some e2)
    (hb : e2.body ≠ e.body) :
    ∃ resp, res = .response resp ∧ resp.statusCode < 400 ∧ resp.statusCode ≠ 304 := by
  rcases hc : cacheGetAllowStale st.cache (cacheKey opts.source opts.path) with _ | entry
  · -- no entry under the fetched key: the entry at k is never touched
    have hk : k ≠ cacheKey opts.source opts.path := by
      intro h
      rw [h, hc] at hold
      cases hold
    rw [fetchResource_miss_eq env now origin opts st hc] at hnew
    rcases ho : getOwner env st.config with e0 | ⟨owner, cfg1⟩
    · rw [fetchFromOrigin_owner_error_eq env now origin opts st _ _ e0 ho] at hnew
      have h2 : cacheGetAllowStale st.cache k = some e2 := hnew
      rw [hold] at h2
      obtain rfl := Option.some.inj h2
      exact absurd rfl hb
    rcases hr : getRepo env cfg1 with e0 | ⟨repo, cfg2⟩
    · rw [fetchFromOrigin_repo_error_eq env now origin opts st _ _ owner cfg1 e0 ho hr]
        at hnew
      have h2 : cacheGetAllowStale st.cache k = some e2 := hnew
      rw [hold] at h2
      obtain rfl := Option.some.inj h2
      exact absurd rfl hb
    rcases res with resp | msg
    · rw [fetchFromOrigin_response_eq env now origin opts st _ _ owner repo cfg1 cfg2 resp
          ho hr (horigin _ _)] at hnew
      by_cases h404 : resp.statusCode = 404
      · rw [handleResponse_notFound_eq _ _ _ _ _ h404] at hnew
        have h2 : cacheGetAllowStale st.cache k = some e2 := hnew
        rw [hold] at h2
        obtain rfl := Option.some.inj h2
        exact absurd rfl hb
      by_cases h4 : 400 ≤ resp.statusCode
      · rw [handleResponse_unavailable_eq _ _ _ _ _ h404 h4] at hnew
        have h2 : cacheGetAllowStale st.cache k = some e2 := hnew
        rw [hold] at h2
        obtain rfl := Option.some.inj h2
        exact absurd rfl hb
      · rw [handleResponse_store_eq _ _ _ _ _ h404 h4] at hnew
        have h2 : cacheGetAllowStale
            (cacheSet st.cache (cacheKey opts.source opts.path) (entryOfResponse resp)
              (now + opts.ttlSeconds * 1000)) k = some e2 := hnew
        rw [cacheGetAllowStale_cacheSet_other _ _ _ _ _ hk] at h2
        rw [hold] at h2
        obtain rfl := Option.some.inj h2
        exact absurd rfl hb
    · rw [fetchFromOrigin_transport_eq env now origin opts st _ _ owner repo cfg1 cfg2 msg
          ho hr (horigin _ _)] at hnew
      have h2 : cacheGetAllowStale st.cache k = some e2 := hnew
      rw [hold] at h2
      obtain rfl := Option.some.inj h2
      exact absurd rfl hb
  · by_cases hf : 0 < cacheRemainingTTL st.cache (cacheKey opts.source opts.path) now
    · rw [fetchResource_fresh_eq env now origin opts st entry hc hf] at hnew
      have h2 : cacheGetAllowStale st.cache k = some e2 := hnew
      rw [hold] at h2
      obtain rfl := Option.some.inj h2
      exact absurd rfl hb
    rw [fetchResource_stale_eq env now origin opts st entry hc hf] at hnew
    rcases ho : getOwner env st.config with e0 | ⟨owner, cfg1⟩
    · rw [fetchFromOrigin_owner_error_eq env now origin opts st _ _ e0 ho] at hnew
      have h2 : cacheGetAllowStale st.cache k = some e2 := hnew
      rw [hold] at h2
      obtain rfl := Option.some.inj h2
      exact absurd rfl hb
    rcases hr : getRepo env cfg1 with e0 | ⟨repo, cfg2⟩
    · rw [fetchFromOrigin_repo_error_eq env now origin opts st _ _ owner cfg1 e0 ho hr]
        at hnew
      have h2 : cacheGetAllowStale st.cache k = some e2 := hnew
      rw [hold] at h2
      obtain rfl := Option.some.inj h2
      exact absurd rfl hb
    rcases res with resp | msg
    · rw [fetchFromOrigin_response_eq env now origin opts st _ _ owner repo cfg1 cfg2 resp
          ho hr (horigin _ _)] at hnew
      by_cases h304 : resp.statusCode = 304
      · rw [handleResponse_revalidate_eq _ _ _ _ _ _ h304] at hnew
        by_cases hkey : k = cacheKey opts.source opts.path
        · subst hkey
          have h2 : cacheGetAllowStale
              (cacheSet st.cache (cacheKey opts.source opts.path)
                ({ entry with statusCode := some resp.statusCode })
                (now + opts.ttlSeconds * 1000)) (cacheKey opts.source opts.path) =
              some e2 := hnew
          rw [cacheGetAllowStale_cacheSet_self] at h2
          obtain rfl := Option.some.inj h2
          rw [hc] at hold
          obtain rfl := Option.some.inj hold
          exact absurd rfl hb
        · have h2 : cacheGetAllowStale
              (cacheSet st.cache (cacheKey opts.source opts.path)
                ({ entry with statusCode := some resp.statusCode })
                (now + opts.ttlSeconds * 1000)) k = some e2 := hnew
          rw [cacheGetAllowStale_cacheSet_other _ _ _ _ _ hkey] at h2
          rw [hold] at h2
          obtain rfl := Option.some.inj h2
          exact absurd rfl hb
      by_cases herr : resp.statusCode = 404 ∨ 400 ≤ resp.statusCode
      · rw [handleResponse_stale_eq _ _ _ _ _ _ h304 herr] at hnew
        have h2 : cacheGetAllowStale st.cache k = some e2 := hnew
        rw [hold] at h2
        obtain rfl := Option.some.inj h2
        exact absurd rfl hb
      · push_neg at herr
        exact ⟨resp, rfl, by omega, h304⟩
    · rw [fetchFromOrigin_transport_eq env now origin opts st _ _ owner repo cfg1 cfg2 msg
          ho hr (horigin _ _)] at hnew
      have h2 : cacheGetAllowStale st.cache k = some e2 := hnew
      rw [hold] at h2
      obtain rfl := Option.some.inj h2
      exact absurd rfl hb

theorem payload_replacement_characterization_witness :
    cacheGetAllowStale stStale.cache keyA = some entryA ∧
    cacheGetAllowStale (fetchResource envA 1100 origin301 optsA stStale).state.cache keyA =
      some { body := "redirect", statusCode := some 301 } ∧
    (∃ resp, OriginResult.response resp301 = .response resp ∧
      resp.statusCode < 400 ∧ resp.statusCode ≠ 304) :=
  ⟨rfl, rfl,
   payload_replacement_characterization envA 1100 origin301 optsA stStale
     (.response resp301) (fun _ _ => rfl) keyA entryA
     { body := "redirect", statusCode := some 301 } rfl rfl (by decide)⟩

/-- C9 counterexample: fetched bytes that are valid JSON but do not match
the Manifest shape (here the number 42) do not make `getManifest` fail:
no shape validation happens (the `as Manifest` cast is erased at runtime)
and the call succeeds, returning the mis-shaped value. -/
theorem wrong_shape_accepted_cex :
    (getManifest envA 0 origin200 jparse42 60 Dataset.lending stEmpty).result = .ok
      { manifest := Json.num 42, etag := some "etag-1", updatedAt := none,
        metrics := { cacheHit := false, upstreamStatus := 200, servedStale := false,
                     source := "manifest:lending" } } :=
  rfl

/-- C9 (amended): when the fetched bytes are not valid JSON (`JSON.parse`
throws), `getManifest` and `getDailyDataset` fail with a parse error — a
plain `Error`, distinct from the not-found and unavailable fetch-failure
kinds — that is not masked by stale serving and is fatal for that fetch;
bytes that parse as JSON are returned without any shape validation. -/
theorem parse_failure_distinct (env : Env) (now : Nat) (origin : Origin)
    (jparse : JsonParse) (mTtl dTtl : Nat) (ds : Dataset) (date : String)
    (st : GithubState) (msg1 msg2 : String) (r1 r2 : FetchResult)
    (hf1 : (fetchResource env now origin
        { ttlSeconds := mTtl, source := "manifest:" ++ datasetName ds,
          path := "meta/" ++ datasetName ds ++ "_manifest.json" } st).result = .ok r1)
    (hp1 : jparse r1.buffer = .error msg1)
    (hf2 : (fetchResource env now origin
        { ttlSeconds := dTtl, source := datasetName ds ++ ":" ++ date,
          path := "data/" ++ datasetName ds ++ "/" ++ date ++ ".json" } st).result = .ok r2)
    (hp2 : jparse r2.buffer = .error msg2) :
    ((getManifest env now origin jparse mTtl ds st).result =
        .error (.genericError ("Failed to parse JSON from " ++
          ("meta/" ++ datasetName ds ++ "_manifest.json") ++ ": " ++ msg1)) ∧
      (∀ m, (getManifest env now origin jparse mTtl ds st).result ≠
        .error (.upstreamNotFound m)) ∧
      (∀ m c, (getManifest env now origin jparse mTtl ds st).result ≠
        .error (.upstreamUnavailable m c))) ∧
    ((getDailyDataset env now origin jparse dTtl ds date st).result =
        .error (.genericError ("Failed to parse JSON from " ++
          ("data/" ++ datasetName ds ++ "/" ++ date ++ ".json") ++ ": " ++ msg2)) ∧
      (∀ m, (getDailyDataset env now origin jparse dTtl ds date st).result ≠
        .error (.upstreamNotFound m)) ∧
      (∀ m c, (getDailyDataset env now origin jparse dTtl ds date st).result ≠
        .error (.upstreamUnavailable m c))) := by
  have hm : (getManifest env now origin jparse mTtl ds st).result =
      .error (.genericError ("Failed to parse JSON from " ++
        ("meta/" ++ datasetName ds ++ "_manifest.json") ++ ": " ++ msg1)) := by
    simp only [getManifest, hf1, parseJson, hp1]
  have hd : (getDailyDataset env now origin jparse dTtl ds date st).result =
      .error (.genericError ("Failed to parse JSON from " ++
        ("data/" ++ datasetName ds ++ "/" ++ date ++ ".json") ++ ": " ++ msg2)) := by
    simp only [getDailyDataset, hf2, parseJson, hp2]
  refine ⟨⟨hm, ?_, ?_⟩, ⟨hd, ?_, ?_⟩⟩
  · intro m
    rw [hm]
    simp
  · intro m c
    rw [hm]
    simp
  · intro m
    rw [hd]
    simp
  · intro m c
    rw [hd]
    simp

theorem parse_failure_distinct_witness :
    (fetchResource envA 0 origin200
        { ttlSeconds := 60, source := "manifest:" ++ datasetName Dataset.lending,
          path := "meta/" ++ datasetName Dataset.lending ++ "_manifest.json" }
        stEmpty).result = .ok rManifestA ∧
    jparseFail rManifestA.buffer = .error "Unexpected token" ∧
    (getManifest envA 0 origin200 jparseFail 60 Dataset.lending stEmpty).result =
      .error (.genericError ("Failed to parse JSON from " ++
        ("meta/" ++ datasetName Dataset.lending ++ "_manifest.json") ++ ": " ++
        "Unexpected token")) ∧
    (getDailyDataset envA 0 origin200 jparseFail 300 Dataset.lending "2025-10-01"
        stEmpty).result =
      .error (.genericError ("Failed to parse JSON from " ++
        ("data/" ++ datasetName Dataset.lending ++ "/" ++ "2025-10-01" ++ ".json") ++ ": " ++
        "Unexpected token")) := by
  have h := parse_failure_distinct envA 0 origin200 jparseFail 60 300 Dataset.lending
    "2025-10-01" stEmpty "Unexpected token" "Unexpected token" rManifestA rDailyA
    rfl rfl rfl rfl
  exact ⟨rfl, rfl, h.1.1, h.2.1⟩
